import Mathlib

/-!
Shallow embedding of the `dlms-cosem` decoder crate: the M-Bus reassembly
state machine, the APDU parser, the general-glo-ciphering envelope, the DLMS
data-value tree and the OBIS register projection, together with theorems
checking the natural-language specification against this embedding.

Bytes are modelled as `Nat` (always < 256 where produced by the code), byte
strings as `List Nat`.  Machine integers use explicit `% 2^w` arithmetic where
overflow matters.  IEEE floats are modelled by exact rationals (`ℚ`); the
arithmetic performed by the claims under scrutiny is exact in both semantics.
Rust panics (`unimplemented!`, `unwrap` on `None`) are modelled by an explicit
`abort` outcome so that "no panic" claims are statable.
-/

namespace DlmsCosem

/-- Result of a nom-style parser over a byte list: `ok rest val` on success,
`err` for `nom::Err::Error` (recoverable), `fatal` for `nom::Err::Failure`,
`incomplete` for `nom::Err::Incomplete` (`none` = `Needed::Unknown`), and
`abort` for a Rust panic (e.g. `unimplemented!`). -/
inductive PR (α : Type) where
  | ok (rest : List Nat) (val : α)
  | err
  | fatal
  | incomplete (hint : Option Nat)
  | abort

/-- Sequencing of byte parsers: run the continuation on success, propagate
errors, incompleteness and panics otherwise (the `?` operator / nom tuple
sequencing). -/
def PR.andThen {α β : Type} (x : PR α) (f : List Nat → α → PR β) : PR β :=
  match x with
  | .ok rest v => f rest v
  | .err => .err
  | .fatal => .fatal
  | .incomplete h => .incomplete h
  | .abort => .abort

/-- `nom::number::streaming::u8`. -/
def readU8 : List Nat → PR Nat
  | [] => .incomplete (some 1)
  | b :: rest => .ok rest b

/-- `nom::number::complete::u8`. -/
def readU8c : List Nat → PR Nat
  | [] => .err
  | b :: rest => .ok rest b

/-- Big-endian accumulation loop for `readBE`: the remaining byte count, the
accumulator so far, and the input.  Runs of `nom::Err::Incomplete` carry the
number of missing bytes, as in nom's streaming number parsers. -/
def readBEgo : Nat → Nat → List Nat → PR Nat
  | 0, acc, input => .ok input acc
  | n + 1, _, [] => .incomplete (some (n + 1))
  | n + 1, acc, b :: rest => readBEgo n (acc * 256 + b) rest

/-- `nom::number::streaming` big-endian unsigned reader of `n` bytes. -/
def readBE (n : Nat) (input : List Nat) : PR Nat :=
  readBEgo n 0 input

/-- Two's-complement reinterpretation of a `w`-byte unsigned value. -/
def toSigned (w : Nat) (x : Nat) : Int :=
  if x < 2 ^ (8 * w - 1) then (x : Int) else (x : Int) - 2 ^ (8 * w)

/-- `nom::number::streaming` big-endian signed reader of `n` bytes. -/
def readBEi (n : Nat) (input : List Nat) : PR Int :=
  match readBE n input with
  | .ok rest v => .ok rest (toSigned n v)
  | .err => .err
  | .fatal => .fatal
  | .incomplete h => .incomplete h
  | .abort => .abort

/-! ## M-Bus control information (`src/control_information.rs`) -/

inductive HeaderType where
  | short
  | long
deriving DecidableEq

inductive Direction where
  | masterSlave
  | slaveMaster
deriving DecidableEq

/-- M-Bus control information. -/
inductive ControlInformation where
  | segmented (segment : Nat) (last_segment : Bool)
  | unsegmented (header : HeaderType) (direction : Direction)
deriving DecidableEq

/-- `ControlInformation::try_from(u8)`: bytes `0x00..=0x1f` decode to
`Segmented` (low 4 bits = segment, bit 4 = last-segment); `0x60`, `0x61`,
`0x7c`, `0x7d` decode to `Unsegmented`; everything else is an error. -/
def ControlInformation.tryFrom (b : Nat) : Option ControlInformation :=
  if b ≤ 0x1f then
    some (.segmented (b &&& 0b1111) (decide ((b &&& 0b10000) ≠ 0)))
  else if b = 0x60 then some (.unsegmented .long .masterSlave)
  else if b = 0x61 then some (.unsegmented .short .masterSlave)
  else if b = 0x7c then some (.unsegmented .long .slaveMaster)
  else if b = 0x7d then some (.unsegmented .short .slaveMaster)
  else none

/-- Modelled from the spec: the byte a `ControlInformation` round-trips to;
the source has no encoder, the spec states the decoding round-trips on the
accepted byte set. -/
def ControlInformation.encodeSpec : ControlInformation → Nat
  | .segmented s l => s + (if l then 0x10 else 0)
  | .unsegmented .long .masterSlave => 0x60
  | .unsegmented .short .masterSlave => 0x61
  | .unsegmented .long .slaveMaster => 0x7c
  | .unsegmented .short .slaveMaster => 0x7d

/-! ## Security control byte (`src/security_control.rs`) -/

/-- `SecurityControl` is a single byte. -/
abbrev SecurityControl : Type := Nat

def SecurityControl.suite_id (s : SecurityControl) : Nat := s &&& 0b00001111

def SecurityControl.authentication (s : SecurityControl) : Bool :=
  decide ((s &&& 0b00010000) ≠ 0)

def SecurityControl.encryption (s : SecurityControl) : Bool :=
  decide ((s &&& 0b00100000) ≠ 0)

def SecurityControl.broadcast (s : SecurityControl) : Bool :=
  decide ((s &&& 0b01000000) ≠ 0)

def SecurityControl.compression (s : SecurityControl) : Bool :=
  decide ((s &&& 0b10000000) ≠ 0)

/-- `set_encryption`: OR in the bit, or AND with the complemented bit
(`!ENCRYPTION_BIT = 0xdf` on `u8`). -/
def SecurityControl.set_encryption (s : SecurityControl) (v : Bool) : SecurityControl :=
  if v then s ||| 0b00100000 else s &&& 0xdf

def SecurityControl.parse (input : List Nat) : PR SecurityControl :=
  readU8c input

/-! ## Unit table (`src/unit.rs`) -/

inductive Unit' where
  | year | month | week | day | hour | minute | second | degree | degreeCelsius
  | currency | meter | meterPerSecond | cubicMeter | cubicMeterCorrected
  | cubicMeterPerHour | cubicMeterPerHourCorrected | cubicMeterPerDay
  | cubicMeterPerDayCorrected | liter | kilogramm | newton | newtonmeter
  | pascal | bar | joule | joulePerHour | watt | voltAmpere | var | wattHour
  | voltAmpereHour | varHour | ampere | coulomb | volt | voltPerMeter | farad
  | ohm | ohmMeter | weber | tesla | amperePerMeter | henry | hertz
  | inverseWattHour | inverseVarHour | inverseVoltAmpereHour | voltSquaredHour
  | ampereSquaredHour | kilogrammPerSecond | siemens | kelvin
  | inverseVoltSquaredHour | inverseAmpereSquaredHour | inverseCubicMeter
  | percent | ampereHour | wattHourPerCubicMeter | joulePerCubicMeter
  | molePercent | grammPerCubicMeter | pascalSecond | joulePerKilogramm
  | gramPerSquareCentimeter | atmosphere | dezibelMilliwatt | dezibelMicrovolt
  | dezibel | other | count
deriving DecidableEq

/-- `Unit::try_from(u8)` (derived `TryFromPrimitive` on the discriminants). -/
def Unit'.tryFrom (b : Nat) : Option Unit' :=
  match b with
  | 1 => some .year | 2 => some .month | 3 => some .week | 4 => some .day
  | 5 => some .hour | 6 => some .minute | 7 => some .second | 8 => some .degree
  | 9 => some .degreeCelsius | 10 => some .currency | 11 => some .meter
  | 12 => some .meterPerSecond | 13 => some .cubicMeter
  | 14 => some .cubicMeterCorrected | 15 => some .cubicMeterPerHour
  | 16 => some .cubicMeterPerHourCorrected | 17 => some .cubicMeterPerDay
  | 18 => some .cubicMeterPerDayCorrected | 19 => some .liter
  | 20 => some .kilogramm | 21 => some .newton | 22 => some .newtonmeter
  | 23 => some .pascal | 24 => some .bar | 25 => some .joule
  | 26 => some .joulePerHour | 27 => some .watt | 28 => some .voltAmpere
  | 29 => some .var | 30 => some .wattHour | 31 => some .voltAmpereHour
  | 32 => some .varHour | 33 => some .ampere | 34 => some .coulomb
  | 35 => some .volt | 36 => some .voltPerMeter | 37 => some .farad
  | 38 => some .ohm | 39 => some .ohmMeter | 40 => some .weber
  | 41 => some .tesla | 42 => some .amperePerMeter | 43 => some .henry
  | 44 => some .hertz | 45 => some .inverseWattHour | 46 => some .inverseVarHour
  | 47 => some .inverseVoltAmpereHour | 48 => some .voltSquaredHour
  | 49 => some .ampereSquaredHour | 50 => some .kilogrammPerSecond
  | 51 => some .siemens | 52 => some .kelvin | 53 => some .inverseVoltSquaredHour
  | 54 => some .inverseAmpereSquaredHour | 55 => some .inverseCubicMeter
  | 56 => some .percent | 57 => some .ampereHour
  | 60 => some .wattHourPerCubicMeter | 61 => some .joulePerCubicMeter
  | 62 => some .molePercent | 63 => some .grammPerCubicMeter
  | 64 => some .pascalSecond | 65 => some .joulePerKilogramm
  | 66 => some .gramPerSquareCentimeter | 67 => some .atmosphere
  | 70 => some .dezibelMilliwatt | 71 => some .dezibelMicrovolt
  | 72 => some .dezibel | 254 => some .other | 255 => some .count
  | _ => none

/-! ## OBIS code (`src/obis_code.rs`) -/

structure ObisCode where
  a : Nat
  b : Nat
  c : Nat
  d : Nat
  e : Nat
  f : Nat
deriving DecidableEq

/-- Derived lexicographic `Ord` on the six fields, as a strict-less test. -/
def ObisCode.lt (x y : ObisCode) : Bool :=
  if x.a ≠ y.a then x.a < y.a
  else if x.b ≠ y.b then x.b < y.b
  else if x.c ≠ y.c then x.c < y.c
  else if x.d ≠ y.d then x.d < y.d
  else if x.e ≠ y.e then x.e < y.e
  else x.f < y.f

/-- `ObisCode::parse`: six `complete::u8` bytes. -/
def ObisCode.parse (input : List Nat) : PR ObisCode :=
  match input with
  | a :: b :: c :: d :: e :: f :: rest => .ok rest ⟨a, b, c, d, e, f⟩
  | _ => .err

/-! ## Date, Time, DateTime (`src/data.rs`) -/

structure Date where
  year : Nat
  month : Nat
  day_of_month : Nat
  day_of_week : Nat
deriving DecidableEq

def Date.parse (input : List Nat) : PR Date :=
  match readBE 2 input with
  | .ok i1 year =>
    match i1 with
    | month :: day_of_month :: day_of_week :: rest =>
      .ok rest ⟨year, month, day_of_month, day_of_week⟩
    | _ => .incomplete (some 1)
  | .err => .err
  | .fatal => .fatal
  | .incomplete h => .incomplete h
  | .abort => .abort

structure Time where
  hour : Option Nat
  minute : Option Nat
  second : Option Nat
  hundredth : Option Nat
deriving DecidableEq

/-- `Time::parse`: each field has sentinel `0xff` ⇒ `None`; in-range values
are kept; out-of-range non-sentinel bytes fail (`nom` `fail`). -/
def Time.parse (input : List Nat) : PR Time :=
  match input with
  | hour :: minute :: second :: hundredth :: rest =>
    if hour ≠ 0xff ∧ 23 < hour then .err
    else if minute ≠ 0xff ∧ 59 < minute then .err
    else if second ≠ 0xff ∧ 59 < second then .err
    else if hundredth ≠ 0xff ∧ 99 < hundredth then .err
    else
      .ok rest ⟨if hour = 0xff then none else some hour,
                if minute = 0xff then none else some minute,
                if second = 0xff then none else some second,
                if hundredth = 0xff then none else some hundredth⟩
  | _ => .incomplete (some 1)

abbrev ClockStatus := Nat

structure DateTime where
  date : Date
  time : Time
  offset_minutes : Option Int
  clock_status : Option ClockStatus
deriving DecidableEq

/-- `DateTime::parse`: date, time, big-endian `i16` offset with sentinel
`0x8000`, clock-status byte with sentinel `0xff`. -/
def DateTime.parse (input : List Nat) : PR DateTime :=
  match Date.parse input with
  | .ok i1 date =>
    match Time.parse i1 with
    | .ok i2 time =>
      match readBEi 2 i2 with
      | .ok i3 offset =>
        match i3 with
        | cs :: rest =>
          .ok rest ⟨date, time,
                    if offset = -32768 then none else some offset,
                    if cs = 0xff then none else some cs⟩
        | _ => .incomplete (some 1)
      | .err => .err
      | .fatal => .fatal
      | .incomplete h => .incomplete h
      | .abort => .abort
    | .err => .err
    | .fatal => .fatal
    | .incomplete h => .incomplete h
    | .abort => .abort
  | .err => .err
  | .fatal => .fatal
  | .incomplete h => .incomplete h
  | .abort => .abort

/-! ## DLMS data value tree (`src/data.rs`) -/

inductive DataType where
  | null | array | structureT | bool | bitString | doubleLong
  | doubleLongUnsigned | octetString | visibleString | utf8String
  | binaryCodedDecimal | integer | long | unsigned | longUnsigned
  | compactArray | long64 | long64Unsigned | enum | float32 | float64
  | dateTime | date | time
deriving DecidableEq

/-- `DataType::try_from(u8)`. -/
def DataType.tryFrom (b : Nat) : Option DataType :=
  match b with
  | 0x00 => some .null
  | 0x01 => some .array
  | 0x02 => some .structureT
  | 0x03 => some .bool
  | 0x04 => some .bitString
  | 0x05 => some .doubleLong
  | 0x06 => some .doubleLongUnsigned
  | 0x09 => some .octetString
  | 0x0a => some .visibleString
  | 0x0c => some .utf8String
  | 0x0d => some .binaryCodedDecimal
  | 0x0f => some .integer
  | 0x10 => some .long
  | 0x11 => some .unsigned
  | 0x12 => some .longUnsigned
  | 0x13 => some .compactArray
  | 0x14 => some .long64
  | 0x15 => some .long64Unsigned
  | 0x16 => some .enum
  | 0x17 => some .float32
  | 0x18 => some .float64
  | 0x19 => some .dateTime
  | 0x1a => some .date
  | 0x1b => some .time
  | _ => none

/-- IEEE-754 binary decoding of a bit pattern into an exact rational.
Infinities and NaNs (not representable in `ℚ`) are mapped to `0`; no claim
theorem evaluates the parser on such payloads. -/
def decodeIeee (exBits manBits : Nat) (bits : Nat) : ℚ :=
  let m := bits &&& (2 ^ manBits - 1)
  let e := (bits >>> manBits) &&& (2 ^ exBits - 1)
  let sgn : ℚ := if bits >>> (exBits + manBits) &&& 1 = 1 then -1 else 1
  let bias := 2 ^ (exBits - 1) - 1
  if e = 2 ^ exBits - 1 then 0
  else if e = 0 then sgn * (m : ℚ) * (2 : ℚ) ^ (1 - (bias : ℤ) - manBits)
  else sgn * ((2 ^ manBits + m : ℕ) : ℚ) * (2 : ℚ) ^ ((e : ℤ) - bias - manBits)

/-- DLMS data value.  Rust `f32`/`f64` payloads are modelled as exact
rationals; `OctetString`/`Utf8String` payloads as byte lists. -/
inductive Data where
  | null
  | octetString (bytes : List Nat)
  | utf8String (bytes : List Nat)
  | integer (n : Int)
  | unsigned (n : Nat)
  | long (n : Int)
  | longUnsigned (n : Nat)
  | doubleLong (n : Int)
  | doubleLongUnsigned (n : Nat)
  | long64 (n : Int)
  | long64Unsigned (n : Nat)
  | float32 (q : ℚ)
  | float64 (q : ℚ)
  | dateTime (dt : DateTime)
  | date (d : Date)
  | time (t : Time)
  | struct (items : List Data)
  | enum (n : Nat)

/-- `n` applications of streaming `u8` (`length_count(u8, u8)` given an
already-read count, `count(u8, n)`, or `fill(u8, …)` on an `n`-byte buffer):
take `n` raw bytes, reporting `Incomplete` when the input runs out. -/
def readBytes : Nat → List Nat → PR (List Nat)
  | 0, input => .ok input []
  | _ + 1, [] => .incomplete (some 1)
  | n + 1, b :: rest =>
    match readBytes n rest with
    | .ok r bs => .ok r (b :: bs)
    | .err => .err
    | .fatal => .fatal
    | .incomplete h => .incomplete h
    | .abort => .abort

mutual

/-- `Data::parse`, fuel-indexed.  The tag byte is read, looked up in
`DataType::try_from` (unknown tags are a `nom::Err::Failure`), and the tagged
payload grammar is applied.  Tags present in the `DataType` table but absent
from the `match` in the source (`Array`, `Bool`, `BitString`,
`VisibleString`, `Utf8String`, `BinaryCodedDecimal`, `Unsigned`,
`CompactArray`) hit `unimplemented!`, modelled as `abort`.  Fuel exhaustion
(never reached from the `Data.parse` wrapper) yields `fatal`. -/
def Data.parseF : Nat → List Nat → PR Data
  | 0, _ => .fatal
  | fuel + 1, input =>
    match readU8 input with
    | .ok i1 tagByte =>
      match DataType.tryFrom tagByte with
      | none => .fatal
      | some dt =>
        match dt with
        | .dateTime =>
          match DateTime.parse i1 with
          | .ok r v => .ok r (.dateTime v)
          | .err => .err
          | .fatal => .fatal
          | .incomplete h => .incomplete h
          | .abort => .abort
        | .date =>
          match Date.parse i1 with
          | .ok r v => .ok r (.date v)
          | .err => .err
          | .fatal => .fatal
          | .incomplete h => .incomplete h
          | .abort => .abort
        | .time =>
          match Time.parse i1 with
          | .ok r v => .ok r (.time v)
          | .err => .err
          | .fatal => .fatal
          | .incomplete h => .incomplete h
          | .abort => .abort
        | .null => .ok i1 .null
        | .structureT =>
          match readU8 i1 with
          | .ok i2 n =>
            match Data.parseManyF fuel n i2 with
            | .ok r items => .ok r (.struct items)
            | .err => .err
            | .fatal => .fatal
            | .incomplete h => .incomplete h
            | .abort => .abort
          | .err => .err
          | .fatal => .fatal
          | .incomplete h => .incomplete h
          | .abort => .abort
        | .octetString =>
          match readU8 i1 with
          | .ok i2 n =>
            match readBytes n i2 with
            | .ok r bytes => .ok r (.octetString bytes)
            | .err => .err
            | .fatal => .fatal
            | .incomplete h => .incomplete h
            | .abort => .abort
          | .err => .err
          | .fatal => .fatal
          | .incomplete h => .incomplete h
          | .abort => .abort
        | .float32 =>
          match readBE 4 i1 with
          | .ok r bits => .ok r (.float32 (decodeIeee 8 23 bits))
          | .err => .err
          | .fatal => .fatal
          | .incomplete h => .incomplete h
          | .abort => .abort
        | .float64 =>
          match readBE 8 i1 with
          | .ok r bits => .ok r (.float64 (decodeIeee 11 52 bits))
          | .err => .err
          | .fatal => .fatal
          | .incomplete h => .incomplete h
          | .abort => .abort
        | .integer =>
          match readBEi 1 i1 with
          | .ok r n => .ok r (.integer n)
          | .err => .err
          | .fatal => .fatal
          | .incomplete h => .incomplete h
          | .abort => .abort
        | .long =>
          match readBEi 2 i1 with
          | .ok r n => .ok r (.long n)
          | .err => .err
          | .fatal => .fatal
          | .incomplete h => .incomplete h
          | .abort => .abort
        | .doubleLong =>
          match readBEi 4 i1 with
          | .ok r n => .ok r (.doubleLong n)
          | .err => .err
          | .fatal => .fatal
          | .incomplete h => .incomplete h
          | .abort => .abort
        | .long64 =>
          match readBEi 8 i1 with
          | .ok r n => .ok r (.long64 n)
          | .err => .err
          | .fatal => .fatal
          | .incomplete h => .incomplete h
          | .abort => .abort
        | .enum =>
          match readU8 i1 with
          | .ok r n => .ok r (.enum n)
          | .err => .err
          | .fatal => .fatal
          | .incomplete h => .incomplete h
          | .abort => .abort
        | .longUnsigned =>
          match readBE 2 i1 with
          | .ok r n => .ok r (.longUnsigned n)
          | .err => .err
          | .fatal => .fatal
          | .incomplete h => .incomplete h
          | .abort => .abort
        | .doubleLongUnsigned =>
          match readBE 4 i1 with
          | .ok r n => .ok r (.doubleLongUnsigned n)
          | .err => .err
          | .fatal => .fatal
          | .incomplete h => .incomplete h
          | .abort => .abort
        | .long64Unsigned =>
          match readBE 8 i1 with
          | .ok r n => .ok r (.long64Unsigned n)
          | .err => .err
          | .fatal => .fatal
          | .incomplete h => .incomplete h
          | .abort => .abort
        | _ => .abort
    | .err => .err
    | .fatal => .fatal
    | .incomplete h => .incomplete h
    | .abort => .abort

/-- `length_count(u8, Data::parse)` loop body: `n` consecutive `Data`. -/
def Data.parseManyF : Nat → Nat → List Nat → PR (List Data)
  | 0, _, _ => .fatal
  | _ + 1, 0, input => .ok input []
  | fuel + 1, n + 1, input =>
    match Data.parseF fuel input with
    | .ok i1 d =>
      match Data.parseManyF fuel n i1 with
      | .ok r items => .ok r (d :: items)
      | .err => .err
      | .fatal => .fatal
      | .incomplete h => .incomplete h
      | .abort => .abort
    | .err => .err
    | .fatal => .fatal
    | .incomplete h => .incomplete h
    | .abort => .abort

end

/-- `Data::parse`.  Each parsed node consumes at least its tag byte, so
`2 * input.length + 2` fuel always suffices. -/
def Data.parse (input : List Nat) : PR Data :=
  Data.parseF (2 * input.length + 2) input

/-! ## Data notification (`src/data_notification.rs`) -/

/-- `LongInvokeIdAndPriority` wraps a `u32`. -/
abbrev LongInvokeIdAndPriority := Nat

structure DataNotification where
  long_invoke_id_and_priority : LongInvokeIdAndPriority
  date_time : DateTime
  notification_body : Data

/-- `nom::multi::length_value(u8, DateTime::parse)` (nom 7 semantics): read a
`u8` length, split off that many bytes, run `DateTime::parse` on the block;
an `Incomplete` from the inner parser becomes an error
(`ErrorKind::Complete`), and any unparsed bytes left inside the block are
discarded (`Ok((_, o)) => Ok((rest, o))`). -/
def lengthValueDateTime (input : List Nat) : PR DateTime :=
  match readU8 input with
  | .ok i1 n =>
    if i1.length < n then .incomplete (some (n - i1.length))
    else
      match DateTime.parse (i1.take n) with
      | .ok _ dt => .ok (i1.drop n) dt
      | .incomplete _ => .err
      | .err => .err
      | .fatal => .fatal
      | .abort => .abort
  | .err => .err
  | .fatal => .fatal
  | .incomplete h => .incomplete h
  | .abort => .abort

/-- `DataNotification::parse`. -/
def DataNotification.parse (input : List Nat) : PR DataNotification :=
  match readBE 4 input with
  | .ok i1 liip =>
    match lengthValueDateTime i1 with
    | .ok i2 dt =>
      match Data.parse i2 with
      | .ok rest body => .ok rest ⟨liip, dt, body⟩
      | .err => .err
      | .fatal => .fatal
      | .incomplete h => .incomplete h
      | .abort => .abort
    | .err => .err
    | .fatal => .fatal
    | .incomplete h => .incomplete h
    | .abort => .abort
  | .err => .err
  | .fatal => .fatal
  | .incomplete h => .incomplete h
  | .abort => .abort

/-! ## General-glo-ciphering (`src/general_glo_ciphering.rs`)

The AES-128 block cipher itself lives in the external `aes`/`aes-gcm`
crates; it is modelled as an abstract block-cipher parameter
`E : key → 16-byte block → 16-byte block`.  What the repository code
contributes — the IV layout, counter-mode keystream XOR without tag
verification, the encryption-bit handling — is embedded concretely. -/

abbrev BlockCipher := List Nat → List Nat → List Nat

/-- `u32::to_be_bytes`. -/
def be32 (x : Nat) : List Nat :=
  [x / 2 ^ 24 % 256, x / 2 ^ 16 % 256, x / 2 ^ 8 % 256, x % 256]

/-- GCM counter block number `j` for a 12-byte IV: `J0 = IV ∥ 1`, and the
ciphertext stream uses `inc32(J0), inc32²(J0), …`, i.e. `IV ∥ (2 + j)`. -/
def gcmCounterBlock (iv : List Nat) (j : Nat) : List Nat :=
  iv ++ be32 ((2 + j) % 2 ^ 32)

/-- `Aes128Gcm::encrypt_in_place_detached` restricted to its ciphertext
effect: XOR the buffer with the GCM counter-mode keystream.  The detached
authentication tag the library also computes is discarded by the caller, so
it is not modelled. -/
def gcmEncryptInPlaceDetached (E : BlockCipher) (key iv buf : List Nat) : List Nat :=
  buf.mapIdx fun i b => b ^^^ ((E key (gcmCounterBlock iv (i / 16))).getD (i % 16) 0)

structure GeneralGloCiphering where
  system_title : List Nat
  security_control : SecurityControl
  invocation_counter : Option Nat
  payload : List Nat

/-- `GeneralGloCiphering::decrypt`, with the final state of the (moved)
envelope made observable: when the encryption bit is set, the payload is
XOR-ed in place with the keystream for IV `system_title ∥ invocation_counter`
and the encryption bit is cleared; otherwise the envelope is untouched.
`none` models the `unwrap` panic when `invocation_counter` is absent while
the encryption bit is set. -/
def GeneralGloCiphering.decryptFull (E : BlockCipher) (key : List Nat)
    (g : GeneralGloCiphering) : Option GeneralGloCiphering :=
  if g.security_control.encryption then
    match g.invocation_counter with
    | none => none
    | some c =>
      some { g with
        payload := gcmEncryptInPlaceDetached E key (g.system_title ++ be32 c) g.payload,
        security_control := g.security_control.set_encryption false }
  else some g

/-- `GeneralGloCiphering::decrypt` returns only the payload bytes. -/
def GeneralGloCiphering.decrypt (E : BlockCipher) (key : List Nat)
    (g : GeneralGloCiphering) : Option (List Nat) :=
  (g.decryptFull E key).map (·.payload)

/-- The block-length alternative in `GeneralGloCiphering::parse`: one byte,
which either announces an extended `u16` BE length (`0x82`) or is the length
itself. -/
def GeneralGloCiphering.parseLen (input : List Nat) : PR Nat :=
  match readU8 input with
  | .ok i3 lenByte => if lenByte = 0x82 then readBE 2 i3 else .ok i3 lenByte
  | .err => .err
  | .fatal => .fatal
  | .incomplete h => .incomplete h
  | .abort => .abort

/-- `cond(security_control.authentication() || security_control.encryption(),
be_u32)`: the invocation counter is read exactly when authentication or
encryption is flagged. -/
def GeneralGloCiphering.parseIcnt (sc : SecurityControl) (input : List Nat) :
    PR (Option Nat) :=
  if sc.authentication || sc.encryption then
    match readBE 4 input with
    | .ok i6 c => .ok i6 (some c)
    | .err => .err
    | .fatal => .fatal
    | .incomplete h => .incomplete h
    | .abort => .abort
  else .ok input none

/-- `GeneralGloCiphering::parse`: literal `0x08`, eight system-title bytes, a
short (`< 0x82`) or extended (`0x82` + `u16` BE) block length, the security
control byte, a `u32` BE invocation counter iff authentication or encryption
is set, and `block_len - 5` payload bytes (`usize` wrapping subtraction). -/
def GeneralGloCiphering.parse (input : List Nat) : PR GeneralGloCiphering :=
  match input with
  | [] => .incomplete (some 1)
  | t :: i1 =>
    if t ≠ 8 then .err
    else
      PR.andThen (readBytes 8 i1) fun i2 system_title =>
      PR.andThen (GeneralGloCiphering.parseLen i2) fun i4 blockLen =>
      PR.andThen (SecurityControl.parse i4) fun i5 sc =>
      PR.andThen (GeneralGloCiphering.parseIcnt sc i5) fun i6 invocation_counter =>
      PR.andThen (readBytes ((blockLen + 2 ^ 64 - 5) % 2 ^ 64) i6) fun rest payload =>
      .ok rest ⟨system_title, sc, invocation_counter, payload⟩

/-! ## APDU dispatch (`src/lib.rs`) -/

inductive Apdu where
  | dataNotification (dn : DataNotification)
  | generalGloCiphering (g : GeneralGloCiphering)

/-- `Apdu::parse`: tag `15` → data-notification, tag `219` →
general-glo-ciphering, every other tag hits `unimplemented!` (`abort`). -/
def Apdu.parse (input : List Nat) : PR Apdu :=
  match readU8 input with
  | .ok i1 tagByte =>
    if tagByte = 15 then
      match DataNotification.parse i1 with
      | .ok rest dn => .ok rest (.dataNotification dn)
      | .err => .err
      | .fatal => .fatal
      | .incomplete h => .incomplete h
      | .abort => .abort
    else if tagByte = 219 then
      match GeneralGloCiphering.parse i1 with
      | .ok rest g => .ok rest (.generalGloCiphering g)
      | .err => .err
      | .fatal => .fatal
      | .incomplete h => .incomplete h
      | .abort => .abort
    else .abort
  | .err => .err
  | .fatal => .fatal
  | .incomplete h => .incomplete h
  | .abort => .abort

/-- Error kinds of the crate (`Error` in `src/lib.rs`). -/
inductive DlmsError where
  | invalidFormat
  | incomplete (n : Option Nat)
  | decryptionFailed
  | checksumMismatch
deriving DecidableEq

/-- Byte-parser result carrying crate errors (for `Apdu::parse_encrypted`). -/
inductive PRE (α : Type) where
  | ok (rest : List Nat) (val : α)
  | err (e : DlmsError)
  | fatal (e : DlmsError)
  | incomplete (hint : Option Nat)
  | abort

/-- `Apdu::parse_encrypted`: parse an APDU (any parse error, including an
incomplete, becomes `Failure(InvalidFormat)` via `map_err`); a ciphering
envelope is decrypted (the modelled cipher step never fails, so
`DecryptionFailed` is unreachable) and the plaintext re-parsed with
`all_consuming(complete(Apdu::parse))`. -/
def Apdu.parseEncrypted (E : BlockCipher) (key : List Nat) (input : List Nat) : PRE Apdu :=
  match Apdu.parse input with
  | .ok i1 apdu =>
    match apdu with
    | .generalGloCiphering g =>
      match g.decrypt E key with
      | none => .abort
      | some payload =>
        match Apdu.parse payload with
        | .ok rest apdu2 =>
          if rest = [] then .ok i1 apdu2 else .fatal .invalidFormat
        | .abort => .abort
        | _ => .fatal .invalidFormat
    | apdu => .ok i1 apdu
  | .abort => .abort
  | _ => .fatal .invalidFormat

/-! ## OBIS projection (`src/lib.rs`, `Register` and `ObisMap`) -/

structure Register where
  obis_code : ObisCode
  value : Data
  unit : Option Unit'

/-- Result of a parser over a `&[Data]` slice. -/
inductive DR (α : Type) where
  | ok (rest : List Data) (val : α)
  | err
  | fatal
  | incomplete (hint : Option Nat)
  | abort

/-- `nom::combinator::complete`: turn `Incomplete` into `Err::Error`. -/
def completeD {α : Type} (r : DR α) : DR α :=
  match r with
  | .incomplete _ => .err
  | x => x

/-- `Register::parse_obis_code`: the head `Data` must be an `OctetString`
whose bytes parse as an `ObisCode` with `all_consuming`. -/
def Register.parseObisCode (input : List Data) : DR ObisCode :=
  match input with
  | [] => .incomplete (some 1)
  | d :: rest =>
    match d with
    | .octetString bytes =>
      match ObisCode.parse bytes with
      | .ok r code => if r = [] then .ok rest code else .err
      | .err => .err
      | .fatal => .fatal
      | .incomplete h => .incomplete h
      | .abort => .abort
    | _ => .err

/-- `Register::parse_value`: take the head `Data` verbatim. -/
def Register.parseValue (input : List Data) : DR Data :=
  match input with
  | [] => .incomplete (some 1)
  | d :: rest => .ok rest d

/-- `Register::parse_scaler_unit`: consume a `Structure([Integer(s),
Enum(u)])` head only when `(s, u)` is not the sentinel `(0, 0xff)`. -/
def Register.parseScalerUnit (input : List Data) : DR (Int × Nat) :=
  match input with
  | [] => .incomplete (some 1)
  | d :: rest =>
    match d with
    | .struct [.integer s, .enum u] =>
      if s ≠ 0 ∨ u ≠ 0xff then .ok rest (s, u) else .err
    | _ => .err

/-- The `scale!` factor: `(0..n).fold(1, |f, _| f * 10)` in an `i32`
accumulator (the untyped literal `1` defaults to `i32`), with release-mode
wrapping semantics, kept as the unsigned 32-bit pattern. -/
def factorLoop : Nat → Nat
  | 0 => 1
  | n + 1 => factorLoop n * 10 % 2 ^ 32

/-- The signed value of the 32-bit factor pattern. -/
def i32val (x : Nat) : Int := toSigned 4 x

/-- `scaler.abs() as usize` for `scaler : i8` with release (wrapping)
semantics: `(-128 : i8).abs()` wraps to `-128`, whose `usize` cast
sign-extends to `2^64 - 128`. -/
def i8AbsAsUsize (s : Int) : Nat :=
  if s = -128 then 2 ^ 64 - 128 else s.natAbs

/-- The `scale!` macro body on exact rationals: multiply by the loop factor
for a non-negative scaler, divide by it for a negative one. -/
def scaleQ (v : ℚ) (s : Int) : ℚ :=
  let factor : ℚ := (i32val (factorLoop (i8AbsAsUsize s)) : ℚ)
  if s < 0 then v / factor else v * factor

/-- The `value = match value { … }` rewrite in `Register::parse_inner`. -/
def Register.applyScaler (value : Data) (s : Int) : Data :=
  match value with
  | .longUnsigned v => .float32 (scaleQ (v : ℚ) s)
  | .doubleLongUnsigned v => .float64 (scaleQ (v : ℚ) s)
  | v => v

/-- `Register::parse_inner`: obis code, value, then an optional scaler/unit
pair; when the pair is consumed the value is scaled and the unit byte must
map through the `Unit` table (`fail` otherwise). -/
def Register.parseInner (input : List Data) : DR (ObisCode × Data × Option Unit') :=
  match Register.parseObisCode input with
  | .ok i1 code =>
    match Register.parseValue i1 with
    | .ok i2 value =>
      match Register.parseScalerUnit i2 with
      | .ok i3 (s, u) =>
        match Unit'.tryFrom u with
        | some un => .ok i3 (code, Register.applyScaler value s, some un)
        | none => .err
      | _ => .ok i2 (code, value, none)
    | .err => .err
    | .fatal => .fatal
    | .incomplete h => .incomplete h
    | .abort => .abort
  | .err => .err
  | .fatal => .fatal
  | .incomplete h => .incomplete h
  | .abort => .abort

/-- `Register::parse_inner_nested`: unwrap one `Structure` head and run
`complete(parse_inner)` inside it, discarding whatever the inner parse
leaves unconsumed. -/
def Register.parseInnerNested (input : List Data) : DR (ObisCode × Data × Option Unit') :=
  match input with
  | [] => .incomplete (some 1)
  | d :: rest =>
    match d with
    | .struct items =>
      match completeD (Register.parseInner items) with
      | .ok _ inner => .ok rest inner
      | .err => .err
      | .fatal => .fatal
      | .incomplete h => .incomplete h
      | .abort => .abort
    | _ => .err

/-- `Register::parse = alt((complete(parse_inner), complete(parse_inner_nested)))`. -/
def Register.parse (input : List Data) : DR Register :=
  match completeD (Register.parseInner input) with
  | .ok r (code, value, unit) => .ok r ⟨code, value, unit⟩
  | .err =>
    match completeD (Register.parseInnerNested input) with
    | .ok r (code, value, unit) => .ok r ⟨code, value, unit⟩
    | .err => .err
    | .fatal => .fatal
    | .incomplete h => .incomplete h
    | .abort => .abort
  | .fatal => .fatal
  | .incomplete h => .incomplete h
  | .abort => .abort

/-- `BTreeMap<ObisCode, Register>` modelled as a list sorted by the derived
lexicographic order; `insert` replaces an existing key (last occurrence
wins). -/
def ObisMap.insertReg : List (ObisCode × Register) → ObisCode → Register →
    List (ObisCode × Register)
  | [], k, v => [(k, v)]
  | (k0, v0) :: rest, k, v =>
    if ObisCode.lt k k0 then (k, v) :: (k0, v0) :: rest
    else if k = k0 then (k, v) :: rest
    else (k0, v0) :: ObisMap.insertReg rest k v

structure ObisMap where
  map : List (ObisCode × Register)

/-- `fold_many0(Register::parse, BTreeMap::new, insert)`, fuel-indexed.  nom
stops folding at the first `Err::Error`, propagates failures, and rejects a
parser invocation that consumed nothing (infinite-loop guard).  A successful
`Register::parse` always consumes, so `input.length + 1` fuel suffices. -/
def ObisMap.foldRegsF : Nat → List Data → List (ObisCode × Register) →
    DR (List (ObisCode × Register))
  | 0, _, _ => .fatal
  | fuel + 1, input, acc =>
    match Register.parse input with
    | .ok rest reg =>
      if rest.length = input.length then .err
      else ObisMap.foldRegsF fuel rest (ObisMap.insertReg acc reg.obis_code reg)
    | .err => .ok input acc
    | .fatal => .fatal
    | .incomplete h => .incomplete h
    | .abort => .abort

/-- Result of `ObisMap::parse` (its leftover input is the unit value). -/
inductive OMR where
  | ok (m : ObisMap)
  | err
  | fatal
  | incomplete (hint : Option Nat)
  | abort

/-- `ObisMap::parse`: the APDU must be a `DataNotification` whose body is a
`Structure`; its items are folded through `Register::parse` under
`all_consuming`. -/
def ObisMap.parse (apdu : Apdu) : OMR :=
  match apdu with
  | .dataNotification dn =>
    match dn.notification_body with
    | .struct data =>
      match ObisMap.foldRegsF (data.length + 1) data [] with
      | .ok [] m => .ok ⟨m⟩
      | .ok (_ :: _) _ => .err
      | .err => .err
      | .fatal => .fatal
      | .incomplete h => .incomplete h
      | .abort => .abort
    | _ => .err
  | _ => .err

/-! ## M-Bus reassembly and top-level pipeline (`src/lib.rs`) -/

/-- `mbusparse::Telegram`: only the `LongFrame` variant is accepted by the
code; all other variants are collapsed into `otherFrame`. -/
inductive Telegram where
  | longFrame (control_information : Nat) (user_data : List Nat)
  | otherFrame

/-- Telegram-level parser result. -/
inductive MR (α : Type) where
  | ok (rest : List Telegram) (val : α)
  | err (e : DlmsError)
  | fatal (e : DlmsError)
  | incomplete (hint : Option Nat)
  | abort

/-- The loop body of `parse_mbus`, carrying the reassembly buffer and the
`expected segment` counter (a `u8`, incremented with `wrapping_add`).  Header
bytes are read with `nom::number::complete::u8`, whose error surfaces as
`Err::Error(InvalidFormat)` via the crate's `ParseError` impl. -/
def parseMbusGo (E : BlockCipher) (key : List Nat) :
    List Telegram → List Nat → Nat → MR Apdu
  | [], _, _ => .incomplete none
  | t :: ts, payload, current_segment =>
    match t with
    | .otherFrame => .fatal .invalidFormat
    | .longFrame ci user_data =>
      match ControlInformation.tryFrom ci with
      | none => .fatal .invalidFormat
      | some ciVal =>
        let stripped : MR (List Nat × Bool × Nat) :=
          match ciVal with
          | .segmented s last_segment =>
            if s ≠ current_segment then .fatal .checksumMismatch
            else .ok ts (user_data, last_segment, (current_segment + 1) % 256)
          | .unsegmented header _ =>
            let afterHeader : Option (List Nat) :=
              if header = .long then
                match user_data with
                | _ :: _ :: _ :: rest => some rest
                | _ => none
              else some user_data
            match afterHeader with
            | none => .err .invalidFormat
            | some ud1 =>
              match ud1 with
              | _ :: _ :: _ :: rest => .ok ts (rest, true, current_segment)
              | _ => .err .invalidFormat
        match stripped with
        | .ok _ (ud1, last_segment, segNext) =>
          match ud1 with
          | _ :: _ :: ud2 =>
            let payload2 := payload ++ ud2
            if last_segment then
              match Apdu.parseEncrypted E key payload2 with
              | .ok rest apdu => if rest = [] then .ok ts apdu else .err .invalidFormat
              | .err e => .err e
              | .fatal e => .fatal e
              | .incomplete _ => .err .invalidFormat
              | .abort => .abort
            else parseMbusGo E key ts payload2 segNext
          | _ => .err .invalidFormat
        | .err e => .err e
        | .fatal e => .fatal e
        | .incomplete h => .incomplete h
        | .abort => .abort

/-- `parse_mbus`. -/
def parseMbus (E : BlockCipher) (key : List Nat) (input : List Telegram) : MR Apdu :=
  parseMbusGo E key input [] 0

/-- Outcome of `Dlms::decrypt`. -/
inductive DecryptResult where
  | ok (rest : List Telegram) (m : ObisMap)
  | error (e : DlmsError)
  | abort

/-- `Dlms::decrypt`: run `parse_mbus` (mapping a nom `Incomplete` into
`Error::Incomplete`), then project the APDU through `ObisMap::parse`
(any of its errors becomes `InvalidFormat`). -/
def Dlms.decrypt (E : BlockCipher) (key : List Nat) (input : List Telegram) :
    DecryptResult :=
  match parseMbus E key input with
  | .ok rest apdu =>
    match ObisMap.parse apdu with
    | .ok m => .ok rest m
    | .abort => .abort
    | _ => .error .invalidFormat
  | .err e => .error e
  | .fatal e => .error e
  | .incomplete h => .error (.incomplete h)
  | .abort => .abort

/-! ## Concrete inputs used by the claim theorems -/

/-- The 12 date-time bytes used in the repository's `parse_apdu` test:
2016-09-08 (Thursday) 19:13:25.00, offset −60 minutes, clock status `0x80`. -/
def dt12 : List Nat :=
  [0x07, 0xE0, 0x09, 0x08, 0x04, 0x13, 0x0D, 0x19, 0x00, 0xFF, 0xC4, 0x80]

/-- The `DateTime` those bytes decode to. -/
def dt12Val : DateTime :=
  ⟨⟨2016, 9, 8, 4⟩, ⟨some 19, some 13, some 25, some 0⟩, some (-60), some 128⟩

/-- Scenario S5: inline register item with the sentinel scaler/unit pair. -/
def s5Item : List Data :=
  [.octetString [1, 0, 1, 8, 0, 255], .doubleLongUnsigned 100,
   .struct [.integer 0, .enum 0xff]]

/-- Scenario S5 wrapped in a data-notification APDU. -/
def s5Apdu : Apdu := .dataNotification ⟨21817, dt12Val, .struct s5Item⟩

/-- Scenario S6: inline register item with scaler −3 and unit 30 (Wh). -/
def s6Item : List Data :=
  [.octetString [1, 0, 1, 8, 0, 255], .doubleLongUnsigned 12345,
   .struct [.integer (-3), .enum 30]]

/-- A data-notification whose `u8` length prefix (13) exceeds the 12-byte
`DateTime` encoding by one trailing byte (`0xAA`), followed by a `Null`
body. -/
def dnInput13 : List Nat :=
  [0, 0, 0, 0, 13] ++ dt12 ++ [0xAA, 0x00]

/-- A 20-byte plain data-notification APDU with an empty `Structure` body. -/
def apduPayload20 : List Nat :=
  [0x0F, 0, 0, 0, 0, 0x0C] ++ dt12 ++ [0x02, 0x00]

/-- First segment (segment 0, not last) of `apduPayload20`, with two SAP
bytes in front. -/
def tg0 : Telegram := .longFrame 0x00 ([0xAA, 0xBB] ++ apduPayload20.take 10)

/-- Final segment (segment 1, last) of `apduPayload20`. -/
def tg1 : Telegram := .longFrame 0x11 ([0xAA, 0xBB] ++ apduPayload20.drop 10)

/-- A block cipher instance used to instantiate cipher-generic theorems. -/
def zeroCipher : BlockCipher := fun _ _ => []

/-- A parsed general-glo-ciphering envelope input: tag `0x08`, system title
`1..7, 0x88`, short block length 5, security control `0x21`
(encryption + suite 1), invocation counter `513`, empty payload. -/
def ggcInput : List Nat := [8, 1, 2, 3, 4, 5, 6, 7, 0x88, 5, 0x21, 0, 0, 2, 1]

/-- The envelope `ggcInput` parses to. -/
def ggcVal : GeneralGloCiphering :=
  ⟨[1, 2, 3, 4, 5, 6, 7, 0x88], 0x21, some 513, []⟩

/-- An encrypted envelope with a two-byte payload, used as the C3 witness. -/
def ggcEnc : GeneralGloCiphering := ⟨[1, 2, 3, 4, 5, 6, 7, 8], 0x21, some 5, [0x10, 0x20]⟩

/-- An unencrypted envelope (authentication only), used as the C3 witness. -/
def ggcPlain : GeneralGloCiphering := ⟨[1, 2, 3, 4, 5, 6, 7, 8], 0x10, some 7, [0x30]⟩

/-- Decidable description of a telegram sequence on which the reassembly
loop, started at `expected_segment = seg`, runs to the end without meeting a
last segment (every telegram is an in-order, non-last segmented long frame
with at least the two SAP bytes). -/
def unfinishedFrom : Nat → List Telegram → Bool
  | _, [] => true
  | seg, .longFrame ci ud :: rest =>
    match ControlInformation.tryFrom ci with
    | some (.segmented s false) =>
      s == seg && 2 ≤ ud.length && unfinishedFrom ((seg + 1) % 256) rest
    | _ => false
  | _, .otherFrame :: _ => false

/-! ## Claim theorems -/

/-- Claim C1: the claim (and spec §7) demands that well-formed but
unsupported tags surface as `InvalidFormat` parse failures and never abort
the process.  The code instead reaches `unimplemented!` — a Rust panic,
modelled as `abort` — for every APDU tag other than `0x0F`/`0xDB` (here
`0x10`) and for every `Data` tag that is in the `DataType` table but not in
the decoder `match`: `Array = 1`, `Bool = 3`, `BitString = 4`,
`VisibleString = 10`, `Utf8String = 12`, `BinaryCodedDecimal = 13`,
`Unsigned = 17`, `CompactArray = 19`.  Only tags absent from the `DataType`
table (e.g. `0x07`) fail cleanly with `nom::Err::Failure`. -/
theorem unsupported_tags_abort_instead_of_failing :
    Apdu.parse [0x10] = .abort ∧ Apdu.parse [0xC0] = .abort ∧
    Data.parse [0x01] = .abort ∧ Data.parse [0x03] = .abort ∧
    Data.parse [0x04] = .abort ∧ Data.parse [0x0a] = .abort ∧
    Data.parse [0x0c] = .abort ∧ Data.parse [0x0d] = .abort ∧
    Data.parse [0x11] = .abort ∧ Data.parse [0x13] = .abort ∧
    Data.parse [0x07] = .fatal ∧ Data.parse [0x1c] = .fatal :=
  ⟨rfl, rfl, rfl, rfl, rfl, rfl, rfl, rfl, rfl, rfl, rfl, rfl⟩

/-- Claim C2 counterexample: on the S5 register-item sequence
`[OctetString(1,0,1,8,0,255), DoubleLongUnsigned(100), Structure([Integer(0),
Enum(0xFF)])]` the projection `ObisMap::parse` does **not** succeed: the
sentinel structure is left unconsumed by `Register::parse` and
`all_consuming` rejects the leftover. -/
theorem obismap_parse_fails_on_sentinel_scaler_unit :
    ObisMap.parse s5Apdu = .err :=
  rfl

/-- Claim C2 amended: for every inline register item whose scaler/unit pair
is the sentinel `(0, 0xFF)`, `Register::parse` succeeds consuming only the
obis code and the value, keeping the value variant unscaled (in particular
`DoubleLongUnsigned(100)` stays) with `unit = None`, and leaves the sentinel
structure unconsumed; consequently `ObisMap::parse` on the whole inline
sequence fails (`all_consuming` sees the leftover sentinel) instead of
succeeding.  Only the nested item form
`[Structure([OctetString(obis), value, sentinel])]` projects successfully
with the value unscaled and `unit = None`, because `parse_inner_nested`
discards whatever is left inside the nested structure. -/
theorem register_parse_keeps_value_on_sentinel
    (a b c d e f' : Nat) (v : Data) (liip : Nat) (dt : DateTime) :
    Register.parse
        [.octetString [a, b, c, d, e, f'], v, .struct [.integer 0, .enum 0xff]]
      = .ok [.struct [.integer 0, .enum 0xff]] ⟨⟨a, b, c, d, e, f'⟩, v, none⟩
    ∧ ObisMap.parse (.dataNotification ⟨liip, dt,
        .struct [.octetString [a, b, c, d, e, f'], v,
                 .struct [.integer 0, .enum 0xff]]⟩)
      = .err
    ∧ ObisMap.parse (.dataNotification ⟨liip, dt,
        .struct [.struct [.octetString [a, b, c, d, e, f'], v,
                          .struct [.integer 0, .enum 0xff]]]⟩)
      = .ok ⟨[(⟨a, b, c, d, e, f'⟩, ⟨⟨a, b, c, d, e, f'⟩, v, none⟩)]⟩ :=
  ⟨rfl, rfl, rfl⟩

/-- Claim C2 amended, witness: the sentinel theorem at the concrete S5
register item (obis `1-0:1.8.0*255`, value `DoubleLongUnsigned(100)`). -/
theorem register_parse_keeps_value_on_sentinel_witness :
    Register.parse
        [.octetString [1, 0, 1, 8, 0, 255], .doubleLongUnsigned 100,
         .struct [.integer 0, .enum 0xff]]
      = .ok [.struct [.integer 0, .enum 0xff]]
          ⟨⟨1, 0, 1, 8, 0, 255⟩, .doubleLongUnsigned 100, none⟩
    ∧ ObisMap.parse (.dataNotification ⟨21817, dt12Val,
        .struct [.octetString [1, 0, 1, 8, 0, 255], .doubleLongUnsigned 100,
                 .struct [.integer 0, .enum 0xff]]⟩)
      = .err
    ∧ ObisMap.parse (.dataNotification ⟨21817, dt12Val,
        .struct [.struct [.octetString [1, 0, 1, 8, 0, 255],
                          .doubleLongUnsigned 100,
                          .struct [.integer 0, .enum 0xff]]]⟩)
      = .ok ⟨[(⟨1, 0, 1, 8, 0, 255⟩,
              ⟨⟨1, 0, 1, 8, 0, 255⟩, .doubleLongUnsigned 100, none⟩)]⟩ :=
  register_parse_keeps_value_on_sentinel 1 0 1 8 0 255
    (.doubleLongUnsigned 100) 21817 dt12Val

set_option maxRecDepth 8192 in
/-- Claim C8: `ControlInformation::try_from(b)` succeeds exactly for
`b ∈ {0x00..=0x1F, 0x60, 0x61, 0x7C, 0x7D}`; bytes `≤ 0x1F` decode to
`Segmented` with `segment = b mod 16` and `last_segment` iff bit 4 is set;
the four unsegmented bytes decode to the stated header/direction pairs; and
the decoding round-trips (hence is injective) on the accepted set. -/
theorem control_information_try_from_characterisation
    (b : Nat) (hb : b < 256) :
    ((ControlInformation.tryFrom b).isSome ↔
      (b ≤ 0x1f ∨ b = 0x60 ∨ b = 0x61 ∨ b = 0x7c ∨ b = 0x7d))
    ∧ (b ≤ 0x1f → ControlInformation.tryFrom b
        = some (.segmented (b % 16) (decide (b / 16 % 2 = 1))))
    ∧ ControlInformation.tryFrom 0x60 = some (.unsegmented .long .masterSlave)
    ∧ ControlInformation.tryFrom 0x61 = some (.unsegmented .short .masterSlave)
    ∧ ControlInformation.tryFrom 0x7c = some (.unsegmented .long .slaveMaster)
    ∧ ControlInformation.tryFrom 0x7d = some (.unsegmented .short .slaveMaster)
    ∧ (ControlInformation.tryFrom b).map ControlInformation.encodeSpec
        = (ControlInformation.tryFrom b).map fun _ => b :=
  (by decide :
    ∀ b < 256,
      ((ControlInformation.tryFrom b).isSome ↔
        (b ≤ 0x1f ∨ b = 0x60 ∨ b = 0x61 ∨ b = 0x7c ∨ b = 0x7d))
      ∧ (b ≤ 0x1f → ControlInformation.tryFrom b
          = some (.segmented (b % 16) (decide (b / 16 % 2 = 1))))
      ∧ ControlInformation.tryFrom 0x60 = some (.unsegmented .long .masterSlave)
      ∧ ControlInformation.tryFrom 0x61 = some (.unsegmented .short .masterSlave)
      ∧ ControlInformation.tryFrom 0x7c = some (.unsegmented .long .slaveMaster)
      ∧ ControlInformation.tryFrom 0x7d = some (.unsegmented .short .slaveMaster)
      ∧ (ControlInformation.tryFrom b).map ControlInformation.encodeSpec
          = (ControlInformation.tryFrom b).map fun _ => b)
    b hb

/-- Claim C8 witness: the characterisation applied at the concrete byte
`0x15` (segment 5, last-segment set). -/
theorem control_information_try_from_witness :
    (0x15 : Nat) < 256
    ∧ (((ControlInformation.tryFrom 0x15).isSome ↔
        (0x15 ≤ 0x1f ∨ (0x15 : Nat) = 0x60 ∨ (0x15 : Nat) = 0x61 ∨
         (0x15 : Nat) = 0x7c ∨ (0x15 : Nat) = 0x7d))
      ∧ ((0x15 : Nat) ≤ 0x1f → ControlInformation.tryFrom 0x15
          = some (.segmented (0x15 % 16) (decide ((0x15 : Nat) / 16 % 2 = 1))))
      ∧ ControlInformation.tryFrom 0x60 = some (.unsegmented .long .masterSlave)
      ∧ ControlInformation.tryFrom 0x61 = some (.unsegmented .short .masterSlave)
      ∧ ControlInformation.tryFrom 0x7c = some (.unsegmented .long .slaveMaster)
      ∧ ControlInformation.tryFrom 0x7d = some (.unsegmented .short .slaveMaster)
      ∧ (ControlInformation.tryFrom 0x15).map ControlInformation.encodeSpec
          = (ControlInformation.tryFrom 0x15).map fun _ => (0x15 : Nat)) :=
  ⟨by decide, control_information_try_from_characterisation 0x15 (by decide)⟩

/-- Claim C5 counterexample: a data-notification whose `u8` length prefix
(13) strictly exceeds the 12-byte `DateTime` encoding parses successfully —
the trailing byte inside the block is discarded by `length_value`, not
rejected. -/
theorem dn_parse_accepts_oversized_datetime_block :
    DataNotification.parse dnInput13 = .ok [] ⟨0, dt12Val, .null⟩ := rfl

set_option maxRecDepth 2048 in
/-- Unfolding of `DataNotification::parse` past the 4-byte invoke-id. -/
lemma dn_parse_via (w x y z : Nat) (tail : List Nat) :
    DataNotification.parse (w :: x :: y :: z :: tail)
      = (match lengthValueDateTime tail with
        | .ok i2 dt =>
          (match Data.parse i2 with
           | .ok rest body =>
             .ok rest ⟨(((0 * 256 + w) * 256 + x) * 256 + y) * 256 + z, dt, body⟩
           | .err => .err
           | .fatal => .fatal
           | .incomplete h => .incomplete h
           | .abort => .abort)
        | .err => .err
        | .fatal => .fatal
        | .incomplete h => .incomplete h
        | .abort => .abort) := rfl

/-- `length_value(u8, DateTime::parse)` on a block that holds the 12
`dt12` bytes plus `junk` trailing bytes: the `DateTime` is returned and the
junk is skipped. -/
lemma lengthValueDT_dt12_junk (junk rest : List Nat) :
    lengthValueDateTime ((12 + junk.length) :: (dt12 ++ (junk ++ rest)))
      = .ok rest dt12Val := by
  have hlen : (dt12 ++ junk).length = 12 + junk.length := by
    simp [dt12]; omega
  have hnot : ¬ (dt12 ++ (junk ++ rest)).length < 12 + junk.length := by
    simp [dt12]; omega
  have htake : (dt12 ++ (junk ++ rest)).take (12 + junk.length) = dt12 ++ junk := by
    rw [← List.append_assoc]
    exact List.take_left' hlen
  have hdrop : (dt12 ++ (junk ++ rest)).drop (12 + junk.length) = rest := by
    rw [← List.append_assoc]
    exact List.drop_left' hlen
  have hdt : DateTime.parse (dt12 ++ junk) = .ok junk dt12Val := rfl
  simp only [lengthValueDateTime, readU8]
  rw [if_neg hnot, htake, hdrop, hdt]

/-- `length_value(u8, DateTime::parse)` on an 11-byte block: the inner
`DateTime` parse is incomplete, which `length_value` turns into an error. -/
lemma lengthValueDT_short (rest : List Nat) :
    lengthValueDateTime (11 :: (dt12.take 11 ++ rest)) = .err := by
  have hlen : (dt12.take 11).length = 11 := by simp [dt12]
  have hnot : ¬ (dt12.take 11 ++ rest).length < 11 := by
    rw [List.length_append, hlen]; omega
  have htake : (dt12.take 11 ++ rest).take 11 = dt12.take 11 :=
    List.take_left' hlen
  have hdt : DateTime.parse (dt12.take 11) = .incomplete (some 1) := rfl
  simp only [lengthValueDateTime, readU8]
  rw [if_neg hnot, htake, hdt]

/-- Claim C5 amended: the `u8` length prefix before the date-time must cover
at least one full 12-byte `DateTime`: a block extending past the `DateTime`
parses exactly as the tight block does (the surplus bytes inside the block
are discarded and parsing resumes at the block boundary), while a block too
short for the `DateTime` is rejected. -/
theorem dn_parse_skips_block_tail
    (w x y z : Nat) (junk rest : List Nat) (hlen : 12 + junk.length ≤ 255) :
    DataNotification.parse
        ([w, x, y, z] ++ ((12 + junk.length) :: (dt12 ++ (junk ++ rest))))
      = DataNotification.parse ([w, x, y, z] ++ (12 :: (dt12 ++ rest)))
    ∧ DataNotification.parse ([w, x, y, z] ++ (11 :: (dt12.take 11 ++ rest)))
      = .err := by
  have h1 := lengthValueDT_dt12_junk junk rest
  have h2 : lengthValueDateTime (12 :: (dt12 ++ rest)) = .ok rest dt12Val :=
    lengthValueDT_dt12_junk [] rest
  have h3 := lengthValueDT_short rest
  constructor
  · simp only [List.cons_append, List.nil_append]
    rw [dn_parse_via, dn_parse_via, h1, h2]
  · simp only [List.cons_append, List.nil_append]
    rw [dn_parse_via, h3]

/-- Claim C5 amended, witness: one trailing junk byte `0xAA` inside the
block and a `Null` body after it. -/
theorem dn_parse_skips_block_tail_witness :
    12 + [0xAA].length ≤ 255
    ∧ (DataNotification.parse
          ([0, 0, 0, 0] ++ ((12 + [0xAA].length) :: (dt12 ++ ([0xAA] ++ [0x00]))))
        = DataNotification.parse ([0, 0, 0, 0] ++ (12 :: (dt12 ++ [0x00])))
      ∧ DataNotification.parse ([0, 0, 0, 0] ++ (11 :: (dt12.take 11 ++ [0x00])))
        = .err) :=
  ⟨by decide, dn_parse_skips_block_tail 0 0 0 0 [0xAA] [0x00] (by decide)⟩

/-- Claim C6: during M-Bus reassembly a decoded segment index different from
the running expected-segment counter yields `ChecksumMismatch`; an accepted
segment appends its user data (after the two SAP bytes) and bumps the
counter by a wrapping (`mod 256`) add; in particular two `LongFrame`s with
control information `0x00` then `0x02` fail with `ChecksumMismatch`, both at
`parse_mbus` level and through `Dlms::decrypt`. -/
theorem parse_mbus_segment_mismatch
    (E : BlockCipher) (key : List Nat) (ts : List Telegram) (payload : List Nat)
    (seg ci : Nat) (ud : List Nat) (s : Nat) (l : Bool)
    (hci : ControlInformation.tryFrom ci = some (.segmented s l))
    (hne : s ≠ seg) :
    parseMbusGo E key (.longFrame ci ud :: ts) payload seg
      = .fatal .checksumMismatch
    ∧ (∀ ci2 a b ud2 s2, ControlInformation.tryFrom ci2 = some (.segmented s2 false) →
        s2 = seg →
        parseMbusGo E key (.longFrame ci2 (a :: b :: ud2) :: ts) payload seg
          = parseMbusGo E key ts (payload ++ ud2) ((seg + 1) % 256))
    ∧ parseMbus E key [.longFrame 0x00 [0xAA, 0xBB], .longFrame 0x02 [0xAA, 0xBB]]
        = .fatal .checksumMismatch
    ∧ Dlms.decrypt E key [.longFrame 0x00 [0xAA, 0xBB], .longFrame 0x02 [0xAA, 0xBB]]
        = .error .checksumMismatch := by
  refine ⟨?_, ?_, rfl, rfl⟩
  · simp only [parseMbusGo]
    rw [hci]
    simp [hne]
  · intro ci2 a b ud2 s2 hci2 hs2
    subst hs2
    simp only [parseMbusGo]
    rw [hci2]
    simp

/-- Claim C6 witness: the mismatch theorem applied at control information
`0x02` (segment 2) against expected segment 1. -/
theorem parse_mbus_segment_mismatch_witness :
    ControlInformation.tryFrom 0x02 = some (.segmented 2 false)
    ∧ (2 : Nat) ≠ 1
    ∧ (parseMbusGo zeroCipher [] [.longFrame 0x02 [0, 0]] [] 1
        = .fatal .checksumMismatch
      ∧ (∀ ci2 a b ud2 s2,
          ControlInformation.tryFrom ci2 = some (.segmented s2 false) →
          s2 = 1 →
          parseMbusGo zeroCipher [] (.longFrame ci2 (a :: b :: ud2) :: []) [] 1
            = parseMbusGo zeroCipher [] [] ([] ++ ud2) ((1 + 1) % 256))
      ∧ parseMbus zeroCipher []
          [.longFrame 0x00 [0xAA, 0xBB], .longFrame 0x02 [0xAA, 0xBB]]
          = .fatal .checksumMismatch
      ∧ Dlms.decrypt zeroCipher []
          [.longFrame 0x00 [0xAA, 0xBB], .longFrame 0x02 [0xAA, 0xBB]]
          = .error .checksumMismatch) :=
  ⟨by decide, by decide,
    parse_mbus_segment_mismatch zeroCipher [] [] [] 1 0x02 [0, 0] 2 false
      (by decide) (by decide)⟩

/-- Reassembly helper: on any telegram list that is all in-order, non-last
segments (relative to the running counter), the loop reaches the end of the
input and reports `Incomplete(Unknown)`. -/
lemma parse_mbus_go_unfinished
    (E : BlockCipher) (key : List Nat) :
    ∀ (ts : List Telegram) (payload : List Nat) (seg : Nat),
      unfinishedFrom seg ts = true →
      parseMbusGo E key ts payload seg = .incomplete none := by
  intro ts
  induction ts with
  | nil => intro payload seg _; rfl
  | cons t ts ih =>
    intro payload seg h
    cases t with
    | otherFrame => simp [unfinishedFrom] at h
    | longFrame ci ud =>
      cases hC : ControlInformation.tryFrom ci with
      | none => simp [unfinishedFrom, hC] at h
      | some civ =>
        cases civ with
        | unsegmented hd dir => simp [unfinishedFrom, hC] at h
        | segmented s l =>
          cases l with
          | true => simp [unfinishedFrom, hC] at h
          | false =>
            simp only [unfinishedFrom, hC, Bool.and_eq_true, beq_iff_eq,
              decide_eq_true_eq] at h
            obtain ⟨⟨hs, hud⟩, hrec⟩ := h
            subst hs
            cases ud with
            | nil => simp at hud
            | cons a ud1 =>
              cases ud1 with
              | nil => simp at hud
              | cons b ud2 =>
                simp only [parseMbusGo]
                rw [hC]
                simp
                exact ih (payload ++ ud2) ((s + 1) % 256) hrec

/-- Claim C7: a telegram sequence that ends without a last-segment frame
makes the reassembly loop return `Incomplete(Unknown)` (no telegrams are
consumed: the caller keeps the whole input), which `Dlms::decrypt` surfaces
as `Error::Incomplete(None)`; re-invoking on the sequence extended with the
final segment succeeds — concretely, `[tg0]` gives `Incomplete(None)` and
`[tg0, tg1]` decodes to an empty register map with no telegrams left. -/
theorem parse_mbus_incomplete_without_last_segment
    (E : BlockCipher) (key : List Nat) (ts : List Telegram)
    (payload : List Nat) (seg : Nat)
    (h : unfinishedFrom seg ts = true) :
    parseMbusGo E key ts payload seg = .incomplete none
    ∧ (unfinishedFrom 0 ts = true →
        Dlms.decrypt E key ts = .error (.incomplete none))
    ∧ Dlms.decrypt E key [tg0] = .error (.incomplete none)
    ∧ Dlms.decrypt E key [tg0, tg1] = .ok [] ⟨[]⟩ := by
  refine ⟨parse_mbus_go_unfinished E key ts payload seg h, ?_, rfl, rfl⟩
  intro h0
  unfold Dlms.decrypt parseMbus
  rw [parse_mbus_go_unfinished E key ts [] 0 h0]

/-- Claim C7 witness: the theorem applied to the single non-final segment
`tg0`. -/
theorem parse_mbus_incomplete_witness :
    unfinishedFrom 0 [tg0] = true
    ∧ (parseMbusGo zeroCipher [] [tg0] [] 0 = .incomplete none
      ∧ (unfinishedFrom 0 [tg0] = true →
          Dlms.decrypt zeroCipher [] [tg0] = .error (.incomplete none))
      ∧ Dlms.decrypt zeroCipher [] [tg0] = .error (.incomplete none)
      ∧ Dlms.decrypt zeroCipher [] [tg0, tg1] = .ok [] ⟨[]⟩) :=
  ⟨by decide,
    parse_mbus_incomplete_without_last_segment zeroCipher [] [tg0] [] 0 (by decide)⟩

/-- Success inversion for `PR.andThen`. -/
lemma PR.andThen_ok_inv {α β : Type} {x : PR α} {f : List Nat → α → PR β}
    {rest : List Nat} {b : β} (h : PR.andThen x f = .ok rest b) :
    ∃ r v, x = .ok r v ∧ f r v = .ok rest b := by
  cases x with
  | ok r v => exact ⟨r, v, rfl, h⟩
  | err => exact PR.noConfusion h
  | fatal => exact PR.noConfusion h
  | incomplete hint => exact PR.noConfusion h
  | abort => exact PR.noConfusion h

/-- The `cond(...)` stage yields `Some` exactly when authentication or
encryption is flagged in the security-control byte. -/
lemma ggc_parseIcnt_inv (sc : SecurityControl) (input i6 : List Nat)
    (ic : Option Nat) (h : GeneralGloCiphering.parseIcnt sc input = .ok i6 ic) :
    (ic.isSome ↔ (sc.authentication || sc.encryption) = true) := by
  unfold GeneralGloCiphering.parseIcnt at h
  by_cases hc : (sc.authentication || sc.encryption) = true
  · rw [if_pos hc] at h
    split at h <;> try exact PR.noConfusion h
    injection h with h1 h2
    subst h2
    simp [hc]
  · rw [if_neg hc] at h
    injection h with h1 h2
    subst h2
    simp [hc]

/-- Claim C9: every envelope produced by `GeneralGloCiphering::parse` has
`invocation_counter = Some …` exactly when the authentication or encryption
bit is set, so the `unwrap` inside `decrypt` (modelled as the `none` outcome
of `decryptFull`/`decrypt`) is unreachable: `decrypt` never panics on a
parsed envelope, for any block cipher and key. -/
theorem ggc_parse_invocation_counter_consistent
    (input rest : List Nat) (g : GeneralGloCiphering)
    (h : GeneralGloCiphering.parse input = .ok rest g) :
    (g.invocation_counter.isSome
      ↔ (g.security_control.authentication || g.security_control.encryption) = true)
    ∧ ∀ E key, (g.decrypt E key).isSome := by
  cases input with
  | nil => exact PR.noConfusion h
  | cons t i1 =>
    simp only [GeneralGloCiphering.parse] at h
    split at h
    · exact PR.noConfusion h
    · obtain ⟨i2, title, hr8, h⟩ := PR.andThen_ok_inv h
      obtain ⟨i4, blockLen, hle, h⟩ := PR.andThen_ok_inv h
      obtain ⟨i5, sc, hsc, h⟩ := PR.andThen_ok_inv h
      obtain ⟨i6, ic, hic, h⟩ := PR.andThen_ok_inv h
      obtain ⟨r7, payload, hpay, h⟩ := PR.andThen_ok_inv h
      injection h with h1 h2
      subst h1
      subst h2
      have hiff := ggc_parseIcnt_inv sc i5 i6 ic hic
      refine ⟨hiff, fun E key => ?_⟩
      simp only [GeneralGloCiphering.decrypt, GeneralGloCiphering.decryptFull,
        Option.isSome_map]
      by_cases henc : SecurityControl.encryption sc = true
      · have hs : ic.isSome := by
          rw [hiff]
          simp [henc]
        simp only [henc, if_true]
        cases ic with
        | none => simp at hs
        | some c => simp
      · simp only [henc]
        simp

/-- Claim C9 witness: the consistency theorem applied to the concrete parsed
envelope `ggcVal` (encryption bit set, counter present). -/
theorem ggc_parse_invocation_counter_witness :
    GeneralGloCiphering.parse ggcInput = .ok [] ggcVal
    ∧ ((ggcVal.invocation_counter.isSome
        ↔ (ggcVal.security_control.authentication
            || ggcVal.security_control.encryption) = true)
      ∧ ∀ E key, (ggcVal.decrypt E key).isSome) :=
  ⟨rfl, ggc_parse_invocation_counter_consistent ggcInput [] ggcVal rfl⟩

/-- Claim C3: `GeneralGloCiphering::decrypt` with the encryption bit set
XORs the payload in place with the counter-mode keystream of the block
cipher under the 12-byte IV `system_title ∥ invocation_counter_be` (GCM
counter blocks `IV ∥ 2, IV ∥ 3, …`; no authentication tag is read or
verified) and clears the encryption bit, leaving every other
security-control field and the rest of the envelope untouched; with the
encryption bit clear it returns the payload byte-for-byte unchanged.  The
block cipher `E` (AES-128 in the external `aes-gcm` crate) is universally
quantified. -/
theorem ggc_decrypt_ctr_and_bit_clear (E : BlockCipher) (key : List Nat)
    (g : GeneralGloCiphering) :
    (g.security_control.encryption = false →
      g.decryptFull E key = some g ∧ g.decrypt E key = some g.payload)
    ∧ (∀ c, g.security_control.encryption = true → g.invocation_counter = some c →
        ∃ g2, g.decryptFull E key = some g2
          ∧ g2.system_title = g.system_title
          ∧ g2.invocation_counter = g.invocation_counter
          ∧ g2.security_control.encryption = false
          ∧ g2.security_control.authentication = g.security_control.authentication
          ∧ g2.security_control.broadcast = g.security_control.broadcast
          ∧ g2.security_control.compression = g.security_control.compression
          ∧ g2.security_control.suite_id = g.security_control.suite_id
          ∧ g2.payload.length = g.payload.length
          ∧ ∀ i, i < g.payload.length →
              g2.payload.getD i 0 = (g.payload.getD i 0) ^^^
                ((E key ((g.system_title ++ be32 c) ++ be32 ((2 + i / 16) % 2 ^ 32))).getD
                  (i % 16) 0)) := by
  constructor
  · intro henc
    unfold GeneralGloCiphering.decryptFull GeneralGloCiphering.decrypt
    rw [henc]
    simp [GeneralGloCiphering.decryptFull, henc]
  · intro c henc hic
    unfold GeneralGloCiphering.decryptFull
    rw [henc, hic]
    simp only [if_true]
    refine ⟨_, rfl, rfl, rfl, ?_, ?_, ?_, ?_, ?_, ?_, ?_⟩
    · show SecurityControl.encryption (g.security_control.set_encryption false) = false
      unfold SecurityControl.encryption SecurityControl.set_encryption
      simp [Nat.and_assoc, show (223 &&& 32 : Nat) = 0 from rfl]
    · show SecurityControl.authentication (g.security_control.set_encryption false)
        = SecurityControl.authentication g.security_control
      unfold SecurityControl.authentication SecurityControl.set_encryption
      simp [Nat.and_assoc, show (223 &&& 16 : Nat) = 16 from rfl]
    · show SecurityControl.broadcast (g.security_control.set_encryption false)
        = SecurityControl.broadcast g.security_control
      unfold SecurityControl.broadcast SecurityControl.set_encryption
      simp [Nat.and_assoc, show (223 &&& 64 : Nat) = 64 from rfl]
    · show SecurityControl.compression (g.security_control.set_encryption false)
        = SecurityControl.compression g.security_control
      unfold SecurityControl.compression SecurityControl.set_encryption
      simp [Nat.and_assoc, show (223 &&& 128 : Nat) = 128 from rfl]
    · show SecurityControl.suite_id (g.security_control.set_encryption false)
        = SecurityControl.suite_id g.security_control
      unfold SecurityControl.suite_id SecurityControl.set_encryption
      simp [Nat.and_assoc, show (223 &&& 15 : Nat) = 15 from rfl]
    · show (gcmEncryptInPlaceDetached E key (g.system_title ++ be32 c) g.payload).length
        = g.payload.length
      unfold gcmEncryptInPlaceDetached
      exact List.length_mapIdx
    · intro i hi
      show (gcmEncryptInPlaceDetached E key (g.system_title ++ be32 c) g.payload).getD i 0 = _
      unfold gcmEncryptInPlaceDetached gcmCounterBlock
      have hi2 : i < (g.payload.mapIdx fun i b =>
          b ^^^ ((E key ((g.system_title ++ be32 c) ++ be32 ((2 + i / 16) % 2 ^ 32))).getD
            (i % 16) 0)).length := by
        rw [List.length_mapIdx]; exact hi
      rw [List.getD_eq_getElem _ _ hi2, List.getD_eq_getElem _ _ hi]
      exact List.get_mapIdx g.payload _ i hi



/-- Claim C3 witness: the decrypt theorem applied to `ggcEnc` (encrypted,
counter present) and `ggcPlain` (encryption clear) under `zeroCipher`. -/
theorem ggc_decrypt_ctr_witness :
    ggcEnc.security_control.encryption = true
    ∧ ggcEnc.invocation_counter = some 5
    ∧ (∃ g2, ggcEnc.decryptFull zeroCipher [] = some g2
        ∧ g2.system_title = ggcEnc.system_title
        ∧ g2.invocation_counter = ggcEnc.invocation_counter
        ∧ g2.security_control.encryption = false
        ∧ g2.security_control.authentication = ggcEnc.security_control.authentication
        ∧ g2.security_control.broadcast = ggcEnc.security_control.broadcast
        ∧ g2.security_control.compression = ggcEnc.security_control.compression
        ∧ g2.security_control.suite_id = ggcEnc.security_control.suite_id
        ∧ g2.payload.length = ggcEnc.payload.length
        ∧ ∀ i, i < ggcEnc.payload.length →
            g2.payload.getD i 0 = (ggcEnc.payload.getD i 0) ^^^
              ((zeroCipher [] ((ggcEnc.system_title ++ be32 5)
                  ++ be32 ((2 + i / 16) % 2 ^ 32))).getD (i % 16) 0))
    ∧ ggcPlain.security_control.encryption = false
    ∧ (ggcPlain.decryptFull zeroCipher [] = some ggcPlain
      ∧ ggcPlain.decrypt zeroCipher [] = some ggcPlain.payload) :=
  ⟨rfl, rfl,
    (ggc_decrypt_ctr_and_bit_clear zeroCipher [] ggcEnc).2 5 rfl rfl,
    rfl,
    (ggc_decrypt_ctr_and_bit_clear zeroCipher [] ggcPlain).1 rfl⟩

lemma factorLoop_eq (n : Nat) : factorLoop n = 10 ^ n % 2 ^ 32 := by
  induction n with
  | zero => rfl
  | succ n ih =>
    rw [factorLoop, ih, Nat.mod_mul_mod, ← pow_succ]

lemma factorLoop_small {n : Nat} (h : n ≤ 9) : factorLoop n = 10 ^ n := by
  rw [factorLoop_eq]
  apply Nat.mod_eq_of_lt
  calc 10 ^ n ≤ 10 ^ 9 := Nat.pow_le_pow_right (by norm_num) h
    _ < 2 ^ 32 := by norm_num

lemma i32val_small {x : Nat} (h : x < 2 ^ 31) : i32val x = x := by
  unfold i32val toSigned
  norm_num
  omega

lemma scaleQ_zpow (s : Int) (h1 : -9 ≤ s) (h2 : s ≤ 9) (v : ℚ) :
    scaleQ v s = v * (10 : ℚ) ^ s := by
  have hne : s ≠ -128 := by omega
  have habs : s.natAbs ≤ 9 := by omega
  have hlt : 10 ^ s.natAbs < 2 ^ 31 :=
    calc 10 ^ s.natAbs ≤ 10 ^ 9 := Nat.pow_le_pow_right (by norm_num) habs
      _ < 2 ^ 31 := by norm_num
  unfold scaleQ i8AbsAsUsize
  rw [if_neg hne, factorLoop_small habs, i32val_small hlt]
  rcases s with n | n
  · rw [if_neg (by exact of_decide_eq_false rfl)]
    push_cast
    simp
  · rw [if_pos (Int.negSucc_lt_zero n)]
    rw [zpow_negSucc, div_eq_mul_inv]
    push_cast
    norm_num

/-- Claim C10: the scale factor is computed as `(0..|s|).fold(1, f * 10)` in
a 32-bit accumulator.  For `-9 ≤ s ≤ 9` the factor is exactly `10^|s|` and
the scaled value equals `v × 10^s`; for `|s| ≥ 10` the accumulator has
wrapped and its signed value no longer equals the mathematical power (for
`|s| ≥ 32` it is exactly `0`); for `s = -128` the `i8` absolute value itself
wraps, the iteration count becomes `2^64 - 128`, the factor collapses to `0`
and the result (division by zero) differs from `100 × 10^(-128) ≠ 0`. -/
theorem factor_overflow :
    (∀ n, n ≤ 9 → i32val (factorLoop n) = 10 ^ n)
    ∧ (∀ s : Int, -9 ≤ s → s ≤ 9 → ∀ v : ℚ, scaleQ v s = v * (10 : ℚ) ^ s)
    ∧ (∀ n, 10 ≤ n → i32val (factorLoop n) ≠ 10 ^ n)
    ∧ i8AbsAsUsize (-128) = 2 ^ 64 - 128
    ∧ (∀ n, 32 ≤ n → factorLoop n = 0)
    ∧ scaleQ 100 (-128) = 0
    ∧ (100 : ℚ) * (10 : ℚ) ^ (-128 : ℤ) ≠ 0 := by
  have hzero : ∀ n, 32 ≤ n → factorLoop n = 0 := by
    intro n hn
    rw [factorLoop_eq]
    have hdvd : (2 : ℕ) ^ 32 ∣ 10 ^ n :=
      dvd_trans (pow_dvd_pow 2 hn) (pow_dvd_pow_of_dvd (by norm_num) n)
    omega
  refine ⟨?_, scaleQ_zpow, ?_, if_pos rfl, hzero, ?_, ?_⟩
  · intro n hn
    rw [factorLoop_small hn,
      i32val_small (calc 10 ^ n ≤ 10 ^ 9 := Nat.pow_le_pow_right (by norm_num) hn
        _ < 2 ^ 31 := by norm_num)]
    push_cast
    ring
  · intro n hn
    have hlt : i32val (factorLoop n) < 10 ^ n := by
      have hmod : factorLoop n < 2 ^ 32 := by
        rw [factorLoop_eq]; exact Nat.mod_lt _ (by norm_num)
      have hbig : (2 : ℤ) ^ 32 ≤ 10 ^ n :=
        calc (2 : ℤ) ^ 32 ≤ 10 ^ 10 := by norm_num
          _ ≤ 10 ^ n := pow_le_pow_right₀ (by norm_num) hn
      unfold i32val toSigned
      split <;> push_cast <;> omega
    exact ne_of_lt hlt
  · have ha : i8AbsAsUsize (-128) = 2 ^ 64 - 128 := if_pos rfl
    have h128 : i32val (factorLoop (i8AbsAsUsize (-128))) = 0 := by
      rw [ha, hzero _ (by norm_num)]
      rfl
    simp only [scaleQ, h128]
    norm_num
  · exact mul_ne_zero (by norm_num) (zpow_ne_zero _ (by norm_num))


/-- Claim C10 witness: the factor theorem applied at `n = 9`, `s = -3` and
`n = 10`. -/
theorem factor_overflow_witness :
    (9 : Nat) ≤ 9 ∧ i32val (factorLoop 9) = 10 ^ 9
    ∧ (-9 : Int) ≤ -3 ∧ (-3 : Int) ≤ 9
    ∧ scaleQ 7 (-3) = 7 * (10 : ℚ) ^ (-3 : ℤ)
    ∧ (10 : Nat) ≤ 10 ∧ i32val (factorLoop 10) ≠ 10 ^ 10
    ∧ (32 : Nat) ≤ 35 ∧ factorLoop 35 = 0 :=
  ⟨by norm_num, factor_overflow.1 9 (by norm_num),
   by norm_num, by norm_num,
   factor_overflow.2.1 (-3) (by norm_num) (by norm_num) 7,
   by norm_num, factor_overflow.2.2.1 10 (by norm_num),
   by norm_num, factor_overflow.2.2.2.2.1 35 (by norm_num)⟩

/-- Claim C4: a register item with a consumed (non-sentinel) scaler/unit
pair whose unit byte maps through the `Unit` table parses with the value
rewritten by the scaling rule — `LongUnsigned` becomes `Float32(v × factor)`,
`DoubleLongUnsigned` becomes `Float64(v × factor)`, every other variant
passes through unchanged — and the mapped unit attached; the factor equals
the mathematical `10^s` for `-9 ≤ s ≤ 9`, and the concrete S6 item
`[OctetString(1,0,1,8,0,255), DoubleLongUnsigned(12345),
Structure([Integer(-3), Enum(30)])]` yields `Float64(12.345)` with unit
`WattHour`. -/
theorem register_scaling (a b c d e f' : Nat) (v : Data) (s : Int) (u : Nat)
    (un : Unit') (rest : List Data)
    (hsent : ¬(s = 0 ∧ u = 0xff)) (hunit : Unit'.tryFrom u = some un) :
    Register.parseInner
        (.octetString [a, b, c, d, e, f'] :: v :: .struct [.integer s, .enum u] :: rest)
      = .ok rest (⟨a, b, c, d, e, f'⟩, Register.applyScaler v s, some un)
    ∧ (∀ n : Nat, Register.applyScaler (.longUnsigned n) s = .float32 (scaleQ (n : ℚ) s))
    ∧ (∀ n : Nat, Register.applyScaler (.doubleLongUnsigned n) s
        = .float64 (scaleQ (n : ℚ) s))
    ∧ (∀ w : Data, (∀ n, w ≠ .longUnsigned n) → (∀ n, w ≠ .doubleLongUnsigned n) →
        Register.applyScaler w s = w)
    ∧ (-9 ≤ s → s ≤ 9 → ∀ q : ℚ, scaleQ q s = q * (10 : ℚ) ^ s)
    ∧ Register.parse s6Item
        = .ok [] ⟨⟨1, 0, 1, 8, 0, 255⟩, .float64 (12.345 : ℚ), some .wattHour⟩ := by
  have hcond : s ≠ 0 ∨ u ≠ 0xff := by tauto
  refine ⟨?_, fun n => rfl, fun n => rfl, ?_, fun h1 h2 q => scaleQ_zpow s h1 h2 q, ?_⟩
  · simp [Register.parseInner, Register.parseObisCode, ObisCode.parse,
      Register.parseValue, Register.parseScalerUnit, hcond, hunit]
  · intro w h1 h2
    cases w <;> first
      | rfl
      | exact absurd rfl (h1 _)
      | exact absurd rfl (h2 _)
  · have hq : (12345 : ℚ) / 1000 = (12.345 : ℚ) := by norm_num
    have : Register.parse s6Item
        = .ok [] ⟨⟨1, 0, 1, 8, 0, 255⟩, .float64 ((12345 : ℚ) / 1000), some .wattHour⟩ := rfl
    rw [this, hq]


/-- Claim C4 witness: the scaling theorem applied to the S6 item. -/
theorem register_scaling_witness :
    ¬((-3 : Int) = 0 ∧ (30 : Nat) = 0xff)
    ∧ Unit'.tryFrom 30 = some .wattHour
    ∧ (Register.parseInner
          (.octetString [1, 0, 1, 8, 0, 255] :: .doubleLongUnsigned 12345 ::
            .struct [.integer (-3), .enum 30] :: [])
        = .ok [] (⟨1, 0, 1, 8, 0, 255⟩,
            Register.applyScaler (.doubleLongUnsigned 12345) (-3), some .wattHour)
      ∧ (∀ n : Nat, Register.applyScaler (.longUnsigned n) (-3)
          = .float32 (scaleQ (n : ℚ) (-3)))
      ∧ (∀ n : Nat, Register.applyScaler (.doubleLongUnsigned n) (-3)
          = .float64 (scaleQ (n : ℚ) (-3)))
      ∧ (∀ w : Data, (∀ n, w ≠ .longUnsigned n) → (∀ n, w ≠ .doubleLongUnsigned n) →
          Register.applyScaler w (-3) = w)
      ∧ ((-9 : Int) ≤ -3 → (-3 : Int) ≤ 9 →
          ∀ q : ℚ, scaleQ q (-3) = q * (10 : ℚ) ^ (-3 : ℤ))
      ∧ Register.parse s6Item
          = .ok [] ⟨⟨1, 0, 1, 8, 0, 255⟩, .float64 (12.345 : ℚ), some .wattHour⟩) :=
  ⟨by decide, rfl,
    register_scaling 1 0 1 8 0 255 (.doubleLongUnsigned 12345) (-3) 30 .wattHour []
      (by decide) rfl⟩

end DlmsCosem
